import Mathlib

/-!
Verification of `rpg-dm-tools/tools/detect_traps.py`.

The Python module is embedded shallowly:

* Python/JSON values are `PyValue` (the values `json.load` can produce,
  floats excepted, which no claim touches).
* The on-disk world is a `FileSystem`: an association list from path
  strings to `FileContent`.  A present, readable file whose contents
  parse as JSON is `FileContent.valid v`; a file whose open/read/parse
  raises inside the guarded block is `FileContent.invalid msg` with
  `msg = str(e)`.
* The single `random.randint(1, 20)` draw is an explicit parameter
  `die`; theorems that depend on it being a d20 outcome carry the
  hypothesis `1 ≤ die ∧ die ≤ 20`.
* Exceptions that escape the function are modelled with `Except PyExn`;
  `detect_traps` returns the (result-or-exception, file system) pair so
  that frame properties are statable.
-/

set_option autoImplicit false

/-- Python values as produced by `json.load` (floats omitted; no claim
involves them). `dict` keys coming out of JSON are strings. -/
inductive PyValue where
  | null : PyValue
  | bool (b : Bool) : PyValue
  | int (n : Int) : PyValue
  | str (s : String) : PyValue
  | list (xs : List PyValue) : PyValue
  | dict (entries : List (String × PyValue)) : PyValue

/-- Python exceptions that can escape `detect_traps`. -/
inductive PyExn where
  | attributeError (msg : String) : PyExn
  | typeError (msg : String) : PyExn
deriving Repr, DecidableEq

/-- The name Python reports for the type of a value. -/
def pyTypeName : PyValue → String
  | .null => "NoneType"
  | .bool _ => "bool"
  | .int _ => "int"
  | .str _ => "str"
  | .list _ => "list"
  | .dict _ => "dict"

/-- First-match lookup in an association list with string keys: the
semantics of `d[k]` / `d.get(k)` on the (duplicate-free) dicts of this
development. -/
def assocGet {α : Type} : List (String × α) → String → Option α
  | [], _ => none
  | (k0, v) :: rest, k => if k0 = k then some v else assocGet rest k

/-- One record of the `ROOM_TRAPS` table (field names as in the source). -/
structure TrapDef where
  has_trap : Bool
  trap_type : String
  description : String
  difficulty : String
  damage : String
deriving Repr, DecidableEq

/-- The static trap table `ROOM_TRAPS` from the source module. -/
def ROOM_TRAPS : List (String × TrapDef) :=
  [("darkwood_forest_entrance",
    { has_trap := true
      trap_type := "tripwire"
      description := "A nearly invisible tripwire stretched across the path, connected to a net trap overhead."
      difficulty := "easy"
      damage := "1d6" }),
   ("ancient_crypt",
    { has_trap := true
      trap_type := "pressure_plate"
      description := "A stone pressure plate on the floor, likely triggering poison darts from the walls."
      difficulty := "medium"
      damage := "2d6" }),
   ("dragon_lair",
    { has_trap := true
      trap_type := "magical_ward"
      description := "Glowing runes around the entrance - a magical alarm that will alert the dragon."
      difficulty := "hard"
      damage := "3d8" })]

/-- Contents of a path in the modelled file system. -/
inductive FileContent where
  | valid (v : PyValue) : FileContent
  | invalid (msg : String) : FileContent

/-- The file system: paths to contents.  Absent path = `state_file.exists()` false. -/
abbrev FileSystem := List (String × FileContent)

/-- `Path("game_data") / "sessions" / session_id / "state.json"` rendered
as a POSIX path string. -/
def sessionPath (session_id : String) : String :=
  "game_data/sessions/" ++ session_id ++ "/state.json"

/-- The result dictionary returned by `detect_traps` (insertion order kept). -/
abbrev PyDict := List (String × PyValue)

/-- The `difficulty_dc` dict built inside the trap branch. -/
def difficulty_dc : List (String × Int) :=
  [("easy", 10), ("medium", 15), ("hard", 20)]

/-- `difficulty_dc.get(trap_data["difficulty"], 15)`. -/
def dcFor (difficulty : String) : Int :=
  (assocGet difficulty_dc difficulty).getD 15

/-- The result returned when the perception roll meets or beats the DC. -/
def trapFoundResult (trap_data : TrapDef) (perception_roll dc : Int) : PyDict :=
  [("success", .bool true),
   ("roll", .int perception_roll),
   ("dc", .int dc),
   ("trap_found", .bool true),
   ("trap_type", .str trap_data.trap_type),
   ("description", .str trap_data.description),
   ("difficulty", .str trap_data.difficulty),
   ("potential_damage", .str trap_data.damage),
   ("message", .str ("🎯 Success! (Rolled " ++ toString perception_roll ++ " vs DC "
      ++ toString dc ++ ")\n\nYou carefully scan the area and spot a "
      ++ trap_data.trap_type ++ ":\n" ++ trap_data.description
      ++ "\n\nThis trap appears to be " ++ trap_data.difficulty
      ++ " to disarm and could deal " ++ trap_data.damage
      ++ " damage if triggered."))]

/-- The result returned when the perception roll is below the DC. -/
def trapMissedResult (perception_roll dc : Int) : PyDict :=
  [("success", .bool false),
   ("roll", .int perception_roll),
   ("dc", .int dc),
   ("trap_found", .bool false),
   ("message", .str ("❌ Failed! (Rolled " ++ toString perception_roll ++ " vs DC "
      ++ toString dc
      ++ ")\n\nYou search the area carefully but don\x27t notice anything suspicious. The room appears safe... or does it?"))]

/-- The result returned when the current room has no entry in the table. -/
def clearResult (perception_roll : Int) : PyDict :=
  [("success", .bool true),
   ("roll", .int perception_roll),
   ("trap_found", .bool false),
   ("message", .str ("✓ Clear! (Rolled " ++ toString perception_roll
      ++ ")\n\nYou thoroughly search the area. There are no traps in this location - you can proceed safely."))]

/-- The `if current_room in ROOM_TRAPS: ... else: ...` tail of the function,
given the already-computed `current_room` value and perception roll.
Membership in a string-keyed dict hashes `current_room` first, so an
unhashable value (list or dict) raises `TypeError`; any other non-string
value hashes fine and simply matches no key. -/
def resolveRoom (current_room : PyValue) (perception_roll : Int) :
    Except PyExn PyDict :=
  match current_room with
  | .list _ => .error (.typeError "unhashable type: \x27list\x27")
  | .dict _ => .error (.typeError "unhashable type: \x27dict\x27")
  | .str room =>
      match assocGet ROOM_TRAPS room with
      | some trap_data =>
          let dc := dcFor trap_data.difficulty
          if perception_roll ≥ dc then
            .ok (trapFoundResult trap_data perception_roll dc)
          else
            .ok (trapMissedResult perception_roll dc)
      | none => .ok (clearResult perception_roll)
  | _ => .ok (clearResult perception_roll)

/-- Shallow embedding of `detect_traps(session_id, perception_bonus)`.
`die` is the `random.randint(1, 20)` outcome.  Returns the result (or the
escaping exception) together with the file system after the call. -/
def detect_traps (fs : FileSystem) (session_id : String)
    (perception_bonus : Int) (die : Int) :
    Except PyExn PyDict × FileSystem :=
  match assocGet fs (sessionPath session_id) with
  | none =>
      (.ok [("error", .bool true),
            ("message", .str ("Session \x27" ++ session_id
               ++ "\x27 not found. Create a session first with create_session()."))],
       fs)
  | some (.invalid e) =>
      (.ok [("error", .bool true),
            ("message", .str ("Failed to read session state: " ++ e))],
       fs)
  | some (.valid state) =>
      match state with
      | .dict entries =>
          let current_room := (assocGet entries "current_room").getD (.str "")
          let perception_roll := die + perception_bonus
          (resolveRoom current_room perception_roll, fs)
      | v =>
          (.error (.attributeError ("\x27" ++ pyTypeName v
             ++ "\x27 object has no attribute \x27get\x27")), fs)

/-- Field lookup on the result of a call: `none` when the call raised or
the key is absent. -/
def resultGet (e : Except PyExn PyDict) (k : String) : Option PyValue :=
  match e with
  | .ok r => assocGet r k
  | .error _ => none

/-- `true` exactly when the call returned a dictionary with no `error` key. -/
def okNoError : Except PyExn PyDict → Bool
  | .ok r => (assocGet r "error").isNone
  | .error _ => false

/-- `true` exactly for the Python values `hash()` accepts (lists and dicts
raise `TypeError`). -/
def PyValue.hashable : PyValue → Bool
  | .list _ => false
  | .dict _ => false
  | _ => true

/-! ### Field-lookup facts about the three result shapes -/

theorem trapFoundResult_success (t : TrapDef) (roll dc : Int) :
    assocGet (trapFoundResult t roll dc) "success" = some (.bool true) := rfl

theorem trapFoundResult_roll (t : TrapDef) (roll dc : Int) :
    assocGet (trapFoundResult t roll dc) "roll" = some (.int roll) := rfl

theorem trapFoundResult_dc (t : TrapDef) (roll dc : Int) :
    assocGet (trapFoundResult t roll dc) "dc" = some (.int dc) := rfl

theorem trapFoundResult_trap_found (t : TrapDef) (roll dc : Int) :
    assocGet (trapFoundResult t roll dc) "trap_found" = some (.bool true) := rfl

theorem trapFoundResult_error (t : TrapDef) (roll dc : Int) :
    assocGet (trapFoundResult t roll dc) "error" = none := rfl

theorem trapMissedResult_success (roll dc : Int) :
    assocGet (trapMissedResult roll dc) "success" = some (.bool false) := rfl

theorem trapMissedResult_roll (roll dc : Int) :
    assocGet (trapMissedResult roll dc) "roll" = some (.int roll) := rfl

theorem trapMissedResult_dc (roll dc : Int) :
    assocGet (trapMissedResult roll dc) "dc" = some (.int dc) := rfl

theorem trapMissedResult_trap_found (roll dc : Int) :
    assocGet (trapMissedResult roll dc) "trap_found" = some (.bool false) := rfl

theorem trapMissedResult_error (roll dc : Int) :
    assocGet (trapMissedResult roll dc) "error" = none := rfl

theorem clearResult_success (roll : Int) :
    assocGet (clearResult roll) "success" = some (.bool true) := rfl

theorem clearResult_roll (roll : Int) :
    assocGet (clearResult roll) "roll" = some (.int roll) := rfl

theorem clearResult_trap_found (roll : Int) :
    assocGet (clearResult roll) "trap_found" = some (.bool false) := rfl

theorem clearResult_dc (roll : Int) :
    assocGet (clearResult roll) "dc" = none := rfl

theorem clearResult_error (roll : Int) :
    assocGet (clearResult roll) "error" = none := rfl

/-! ### Reduction lemmas for `detect_traps` and `resolveRoom` -/

theorem detect_traps_parsed_dict (fs : FileSystem) (sid : String)
    (bonus die : Int) (entries : PyDict)
    (hfs : assocGet fs (sessionPath sid) = some (.valid (.dict entries))) :
    (detect_traps fs sid bonus die).1
      = resolveRoom ((assocGet entries "current_room").getD (.str ""))
          (die + bonus) := by
  unfold detect_traps
  rw [hfs]

theorem resolveRoom_trap_some (room : String) (roll : Int) (trap : TrapDef)
    (h : assocGet ROOM_TRAPS room = some trap) :
    resolveRoom (.str room) roll
      = if roll ≥ dcFor trap.difficulty
          then .ok (trapFoundResult trap roll (dcFor trap.difficulty))
          else .ok (trapMissedResult roll (dcFor trap.difficulty)) := by
  simp only [resolveRoom]
  rw [h]

theorem resolveRoom_trap_none (room : String) (roll : Int)
    (h : assocGet ROOM_TRAPS room = none) :
    resolveRoom (.str room) roll = .ok (clearResult roll) := by
  simp only [resolveRoom]
  rw [h]

/-- Every trap in the table carries a DC between 10 and 20. -/
theorem dcFor_bounds (room : String) (trap : TrapDef)
    (h : assocGet ROOM_TRAPS room = some trap) :
    10 ≤ dcFor trap.difficulty ∧ dcFor trap.difficulty ≤ 20 := by
  simp only [ROOM_TRAPS, assocGet] at h
  split at h
  · cases h; exact ⟨by decide, by decide⟩
  split at h
  · cases h; exact ⟨by decide, by decide⟩
  split at h
  · cases h; exact ⟨by decide, by decide⟩
  cases h

/-- Any dictionary actually returned by `detect_traps` has one of four
shapes: an error report, a trap-found result, a trap-missed result, or a
clear result, the latter three carrying the roll `die + bonus`. -/
theorem detect_traps_ok_cases (fs : FileSystem) (sid : String)
    (bonus die : Int) (r : PyDict)
    (hok : (detect_traps fs sid bonus die).1 = .ok r) :
    (∃ msg, r = [("error", .bool true), ("message", .str msg)]) ∨
    (∃ trap, r = trapFoundResult trap (die + bonus) (dcFor trap.difficulty)) ∨
    (∃ dc, r = trapMissedResult (die + bonus) dc) ∨
    r = clearResult (die + bonus) := by
  unfold detect_traps at hok
  cases hfs : assocGet fs (sessionPath sid) with
  | none =>
      simp only [hfs] at hok
      injection hok with h
      exact Or.inl ⟨_, h.symm⟩
  | some c =>
      cases c with
      | invalid e =>
          simp only [hfs] at hok
          injection hok with h
          exact Or.inl ⟨_, h.symm⟩
      | valid v =>
          cases v with
          | dict entries =>
              simp only [hfs] at hok
              cases hcr : (assocGet entries "current_room").getD (.str "") with
              | str s =>
                  rw [hcr] at hok
                  simp only [resolveRoom] at hok
                  cases htr : assocGet ROOM_TRAPS s with
                  | some trap =>
                      simp only [htr] at hok
                      split at hok
                      · injection hok with h
                        exact Or.inr (Or.inl ⟨trap, h.symm⟩)
                      · injection hok with h
                        exact Or.inr (Or.inr (Or.inl ⟨_, h.symm⟩))
                  | none =>
                      simp only [htr] at hok
                      injection hok with h
                      exact Or.inr (Or.inr (Or.inr h.symm))
              | list xs =>
                  rw [hcr] at hok
                  simp only [resolveRoom] at hok
                  cases hok
              | dict es =>
                  rw [hcr] at hok
                  simp only [resolveRoom] at hok
                  cases hok
              | null =>
                  rw [hcr] at hok
                  simp only [resolveRoom] at hok
                  injection hok with h
                  exact Or.inr (Or.inr (Or.inr h.symm))
              | bool b =>
                  rw [hcr] at hok
                  simp only [resolveRoom] at hok
                  injection hok with h
                  exact Or.inr (Or.inr (Or.inr h.symm))
              | int n =>
                  rw [hcr] at hok
                  simp only [resolveRoom] at hok
                  injection hok with h
                  exact Or.inr (Or.inr (Or.inr h.symm))
          | null => simp only [hfs] at hok; cases hok
          | bool b => simp only [hfs] at hok; cases hok
          | int n => simp only [hfs] at hok; cases hok
          | str s => simp only [hfs] at hok; cases hok
          | list xs => simp only [hfs] at hok; cases hok

/-- C1: for a session whose state loads as a JSON object and whose
`current_room` is a key of `ROOM_TRAPS`, the result has `trap_found=true`
iff the perception roll `die + bonus` is at least the trap's DC, has
`trap_found=false` otherwise, and carries the numeric `roll` and `dc`
fields in both branches. -/
theorem detect_traps_trapped_room_found_iff
    (fs : FileSystem) (sid room : String) (bonus die : Int)
    (entries : PyDict) (trap : TrapDef)
    (hfs : assocGet fs (sessionPath sid) = some (.valid (.dict entries)))
    (hroom : (assocGet entries "current_room").getD (.str "") = .str room)
    (htrap : assocGet ROOM_TRAPS room = some trap) :
    (resultGet (detect_traps fs sid bonus die).1 "trap_found" = some (.bool true)
        ↔ die + bonus ≥ dcFor trap.difficulty) ∧
    (resultGet (detect_traps fs sid bonus die).1 "trap_found" = some (.bool false)
        ↔ die + bonus < dcFor trap.difficulty) ∧
    resultGet (detect_traps fs sid bonus die).1 "roll" = some (.int (die + bonus)) ∧
    resultGet (detect_traps fs sid bonus die).1 "dc"
      = some (.int (dcFor trap.difficulty)) := by
  have h1 := detect_traps_parsed_dict fs sid bonus die entries hfs
  rw [hroom, resolveRoom_trap_some room (die + bonus) trap htrap] at h1
  by_cases hge : die + bonus ≥ dcFor trap.difficulty
  · rw [if_pos hge] at h1
    rw [h1]
    refine ⟨?_, ?_, rfl, rfl⟩
    · exact iff_of_true rfl hge
    · exact iff_of_false (by simp [resultGet, trapFoundResult_trap_found]) (by omega)
  · rw [if_neg hge] at h1
    rw [h1]
    refine ⟨?_, ?_, rfl, rfl⟩
    · exact iff_of_false (by simp [resultGet, trapMissedResult_trap_found]) (by omega)
    · exact iff_of_true rfl (by omega)

/-- C1 witness: room `ancient_crypt` (medium, DC 15), bonus 2, die 13:
the roll 15 meets the DC, so `trap_found=true`. -/
theorem detect_traps_trapped_room_found_iff_witness :
    resultGet (detect_traps
        [(sessionPath "w1", FileContent.valid (.dict [("current_room", .str "ancient_crypt")]))]
        "w1" 2 13).1 "trap_found" = some (.bool true) := by
  have h := detect_traps_trapped_room_found_iff
      [(sessionPath "w1", FileContent.valid (.dict [("current_room", .str "ancient_crypt")]))]
      "w1" "ancient_crypt" 2 13 [("current_room", .str "ancient_crypt")]
      { has_trap := true
        trap_type := "pressure_plate"
        description := "A stone pressure plate on the floor, likely triggering poison darts from the walls."
        difficulty := "medium"
        damage := "2d6" }
      rfl rfl rfl
  exact h.1.mpr (by decide)

/-- C4: for a session whose state loads as a JSON object and whose
`current_room` is not a key of `ROOM_TRAPS`, the result has
`success=true`, `trap_found=false`, a `roll` field, and no `dc` key,
for every die outcome and every perception bonus. -/
theorem detect_traps_untrapped_room
    (fs : FileSystem) (sid room : String) (bonus die : Int) (entries : PyDict)
    (hfs : assocGet fs (sessionPath sid) = some (.valid (.dict entries)))
    (hroom : (assocGet entries "current_room").getD (.str "") = .str room)
    (hnone : assocGet ROOM_TRAPS room = none) :
    (detect_traps fs sid bonus die).1 = .ok (clearResult (die + bonus)) ∧
    resultGet (detect_traps fs sid bonus die).1 "success" = some (.bool true) ∧
    resultGet (detect_traps fs sid bonus die).1 "trap_found" = some (.bool false) ∧
    resultGet (detect_traps fs sid bonus die).1 "roll" = some (.int (die + bonus)) ∧
    resultGet (detect_traps fs sid bonus die).1 "dc" = none := by
  have h1 := detect_traps_parsed_dict fs sid bonus die entries hfs
  rw [hroom, resolveRoom_trap_none room (die + bonus) hnone] at h1
  rw [h1]
  exact ⟨rfl, rfl, rfl, rfl, rfl⟩

/-- C4 witness: the spec scenario `current_room="town_square"`, absent
from the table, with bonus 3 and die 7. -/
theorem detect_traps_untrapped_room_witness :
    resultGet (detect_traps
        [(sessionPath "w2", FileContent.valid (.dict [("current_room", .str "town_square")]))]
        "w2" 3 7).1 "success" = some (.bool true) ∧
    resultGet (detect_traps
        [(sessionPath "w2", FileContent.valid (.dict [("current_room", .str "town_square")]))]
        "w2" 3 7).1 "trap_found" = some (.bool false) ∧
    resultGet (detect_traps
        [(sessionPath "w2", FileContent.valid (.dict [("current_room", .str "town_square")]))]
        "w2" 3 7).1 "dc" = none := by
  have h := detect_traps_untrapped_room
      [(sessionPath "w2", FileContent.valid (.dict [("current_room", .str "town_square")]))]
      "w2" "town_square" 3 7 [("current_room", .str "town_square")]
      rfl rfl rfl
  exact ⟨h.2.1, h.2.2.1, h.2.2.2.2⟩

/-- C7: every entry of the static `ROOM_TRAPS` table has
`has_trap = true`. -/
theorem room_traps_all_has_trap :
    ROOM_TRAPS.all (fun p => p.2.has_trap) = true := rfl

/-- C8: `detect_traps` leaves the file system — in particular the
session state file — unchanged on every path, error and non-error
alike; the trap table `ROOM_TRAPS` is an immutable constant of the
embedding, mirroring that the source never writes to it. -/
theorem detect_traps_fs_unchanged (fs : FileSystem) (sid : String)
    (bonus die : Int) :
    (detect_traps fs sid bonus die).2 = fs := by
  unfold detect_traps
  cases hfs : assocGet fs (sessionPath sid) with
  | none => rfl
  | some c =>
      cases c with
      | invalid e => rfl
      | valid v => cases v <;> rfl

/-- C9: a state object with no `current_room` key defaults the room to
the empty string, which is not in the table, so the call succeeds with
`trap_found=false` and no error. -/
theorem detect_traps_default_room
    (fs : FileSystem) (sid : String) (bonus die : Int) (entries : PyDict)
    (hfs : assocGet fs (sessionPath sid) = some (.valid (.dict entries)))
    (hmiss : assocGet entries "current_room" = none) :
    (detect_traps fs sid bonus die).1 = .ok (clearResult (die + bonus)) ∧
    resultGet (detect_traps fs sid bonus die).1 "success" = some (.bool true) ∧
    resultGet (detect_traps fs sid bonus die).1 "trap_found" = some (.bool false) ∧
    resultGet (detect_traps fs sid bonus die).1 "error" = none := by
  have h1 := detect_traps_parsed_dict fs sid bonus die entries hfs
  rw [hmiss, Option.getD_none] at h1
  rw [resolveRoom_trap_none "" (die + bonus) rfl] at h1
  rw [h1]
  exact ⟨rfl, rfl, rfl, rfl⟩

/-- C9 witness: a state object holding only an unrelated key. -/
theorem detect_traps_default_room_witness :
    resultGet (detect_traps
        [(sessionPath "w3", FileContent.valid (.dict [("hp", .int 12)]))]
        "w3" 0 9).1 "success" = some (.bool true) ∧
    resultGet (detect_traps
        [(sessionPath "w3", FileContent.valid (.dict [("hp", .int 12)]))]
        "w3" 0 9).1 "error" = none := by
  have h := detect_traps_default_room
      [(sessionPath "w3", FileContent.valid (.dict [("hp", .int 12)]))]
      "w3" 0 9 [("hp", .int 12)] rfl rfl
  exact ⟨h.2.1, h.2.2.2⟩

/-- C3: the DC is a function of the difficulty string alone — easy 10,
medium 15, hard 20, anything else 15; the three table entries carry DCs
10, 15, 20; and the `dc` reported for a trapped room is exactly `dcFor`
of that trap's difficulty, in both the found and the missed branch. -/
theorem dc_difficulty_mapping :
    (∀ d : String, dcFor d
        = if d = "easy" then 10 else if d = "medium" then 15
          else if d = "hard" then 20 else 15) ∧
    ROOM_TRAPS.map (fun p => dcFor p.2.difficulty) = [10, 15, 20] ∧
    (∀ (room : String) (trap : TrapDef) (roll : Int),
        assocGet ROOM_TRAPS room = some trap →
        resultGet (resolveRoom (.str room) roll) "dc"
          = some (.int (dcFor trap.difficulty))) := by
  refine ⟨?_, rfl, ?_⟩
  · intro d
    simp only [dcFor, difficulty_dc, assocGet]
    by_cases h1 : d = "easy"
    · subst h1; rfl
    by_cases h2 : d = "medium"
    · subst h2; rfl
    by_cases h3 : d = "hard"
    · subst h3; rfl
    rw [if_neg (fun h => h1 h.symm), if_neg (fun h => h2 h.symm),
        if_neg (fun h => h3 h.symm), if_neg h1, if_neg h2, if_neg h3]
    rfl
  · intro room trap roll h
    rw [resolveRoom_trap_some room roll trap h]
    by_cases hge : roll ≥ dcFor trap.difficulty
    · rw [if_pos hge]; rfl
    · rw [if_neg hge]; rfl

/-- C3 witness: the hard trap of `dragon_lair` reports DC 20. -/
theorem dc_difficulty_mapping_witness :
    resultGet (resolveRoom (.str "dragon_lair") 3) "dc" = some (.int 20) := by
  have h := dc_difficulty_mapping.2.2 "dragon_lair"
      { has_trap := true
        trap_type := "magical_ward"
        description := "Glowing runes around the entrance - a magical alarm that will alert the dragon."
        difficulty := "hard"
        damage := "3d8" } 3 rfl
  exact h

/-- C6: every returned dictionary without an `error` key carries
`roll = die + bonus`, so when the die is a d20 outcome the roll lies in
the closed interval `[1 + bonus, 20 + bonus]`, and `roll - bonus` lies
in `[1, 20]`. -/
theorem detect_traps_roll_range
    (fs : FileSystem) (sid : String) (bonus die : Int) (r : PyDict)
    (hdie1 : 1 ≤ die) (hdie2 : die ≤ 20)
    (hok : (detect_traps fs sid bonus die).1 = .ok r)
    (herr : assocGet r "error" = none) :
    assocGet r "roll" = some (.int (die + bonus)) ∧
    1 + bonus ≤ die + bonus ∧ die + bonus ≤ 20 + bonus ∧
    1 ≤ die + bonus - bonus ∧ die + bonus - bonus ≤ 20 := by
  rcases detect_traps_ok_cases fs sid bonus die r hok with
    ⟨msg, hr⟩ | ⟨trap, hr⟩ | ⟨dc, hr⟩ | hr
  · rw [hr] at herr; exact Option.noConfusion herr
  · rw [hr]; exact ⟨rfl, by omega, by omega, by omega, by omega⟩
  · rw [hr]; exact ⟨rfl, by omega, by omega, by omega, by omega⟩
  · rw [hr]; exact ⟨rfl, by omega, by omega, by omega, by omega⟩

/-- C6 witness: an untrapped room with bonus `-2` and die 20 rolls 18. -/
theorem detect_traps_roll_range_witness :
    assocGet (clearResult (20 + -2)) "roll" = some (.int (20 + -2)) := by
  have h := detect_traps_roll_range
      [(sessionPath "w4", FileContent.valid (.dict [("current_room", .str "tavern")]))]
      "w4" (-2) 20 (clearResult (20 + -2)) (by decide) (by decide) rfl rfl
  exact h.1

/-- C2 counterexample: room `darkwood_forest_entrance` (easy, DC 10),
bonus 0, die 5 — the roll fails, the result carries no `error` key, yet
its `success` field is `false`, refuting the claim that every non-error
result has `success=true`. -/
theorem failed_roll_success_false_cex :
    resultGet (detect_traps
        [(sessionPath "s1", FileContent.valid (.dict [("current_room", .str "darkwood_forest_entrance")]))]
        "s1" 0 5).1 "error" = none ∧
    resultGet (detect_traps
        [(sessionPath "s1", FileContent.valid (.dict [("current_room", .str "darkwood_forest_entrance")]))]
        "s1" 0 5).1 "trap_found" = some (.bool false) ∧
    resultGet (detect_traps
        [(sessionPath "s1", FileContent.valid (.dict [("current_room", .str "darkwood_forest_entrance")]))]
        "s1" 0 5).1 "success" = some (.bool false) ∧
    resultGet (detect_traps
        [(sessionPath "s1", FileContent.valid (.dict [("current_room", .str "darkwood_forest_entrance")]))]
        "s1" 0 5).1 "success" ≠ some (.bool true) := by
  refine ⟨rfl, rfl, rfl, ?_⟩
  intro h
  rw [show resultGet (detect_traps
      [(sessionPath "s1", FileContent.valid (.dict [("current_room", .str "darkwood_forest_entrance")]))]
      "s1" 0 5).1 "success" = some (.bool false) from rfl] at h
  injection h with h2
  injection h2 with h3
  cases h3

/-- C2 amended: every returned dictionary without an `error` key has
`success=true`, except the failed-roll result on a trapped room, which
has `success=false` together with `trap_found=false`. -/
theorem detect_traps_success_field_amended
    (fs : FileSystem) (sid : String) (bonus die : Int) (r : PyDict)
    (hok : (detect_traps fs sid bonus die).1 = .ok r)
    (herr : assocGet r "error" = none) :
    assocGet r "success" = some (.bool true) ∨
    (assocGet r "success" = some (.bool false) ∧
     assocGet r "trap_found" = some (.bool false)) := by
  rcases detect_traps_ok_cases fs sid bonus die r hok with
    ⟨msg, hr⟩ | ⟨trap, hr⟩ | ⟨dc, hr⟩ | hr
  · rw [hr] at herr; exact Option.noConfusion herr
  · rw [hr]; exact Or.inl rfl
  · rw [hr]; exact Or.inr ⟨rfl, rfl⟩
  · rw [hr]; exact Or.inl rfl

/-- C2 amended witness: the failed-roll result lands in the
`success=false`, `trap_found=false` branch of the amended statement. -/
theorem detect_traps_success_field_amended_witness :
    assocGet (trapMissedResult (5 + 0) 10) "success" = some (.bool true) ∨
    (assocGet (trapMissedResult (5 + 0) 10) "success" = some (.bool false) ∧
     assocGet (trapMissedResult (5 + 0) 10) "trap_found" = some (.bool false)) :=
  detect_traps_success_field_amended
    [(sessionPath "s2", FileContent.valid (.dict [("current_room", .str "darkwood_forest_entrance")]))]
    "s2" 0 5 (trapMissedResult (5 + 0) 10) rfl rfl

/-- C5 counterexample: a state file whose JSON parses to the list `[]`
is read and parsed without error, yet `state.get` then raises an
uncaught `AttributeError`, refuting the claim that `detect_traps` never
propagates an exception to the caller. -/
theorem nondict_state_exception_cex :
    (detect_traps [(sessionPath "s3", FileContent.valid (.list []))] "s3" 0 1).1
      = .error (.attributeError "\x27list\x27 object has no attribute \x27get\x27") ∧
    okNoError (detect_traps
        [(sessionPath "s3", FileContent.valid (.list []))] "s3" 0 1).1 = false :=
  ⟨rfl, rfl⟩

/-- C5 amended: a missing state file yields the `error=true` result
naming the session identifier; an unreadable or unparsable file yields
the `error=true` read-failure result; and a file that parses to a JSON
object whose `current_room` value is hashable yields a result with no
`error` key — so those two error results are the only ones.  When the
file parses to a non-object value, however, an exception escapes. -/
theorem detect_traps_error_reporting :
    (∀ (fs : FileSystem) (sid : String) (bonus die : Int),
        assocGet fs (sessionPath sid) = none →
        (detect_traps fs sid bonus die).1 = .ok
          [("error", .bool true),
           ("message", .str ("Session \x27" ++ sid
              ++ "\x27 not found. Create a session first with create_session()."))]) ∧
    (∀ (fs : FileSystem) (sid msg : String) (bonus die : Int),
        assocGet fs (sessionPath sid) = some (.invalid msg) →
        (detect_traps fs sid bonus die).1 = .ok
          [("error", .bool true),
           ("message", .str ("Failed to read session state: " ++ msg))]) ∧
    (∀ (fs : FileSystem) (sid : String) (bonus die : Int) (entries : PyDict),
        assocGet fs (sessionPath sid) = some (.valid (.dict entries)) →
        ((assocGet entries "current_room").getD (.str "")).hashable = true →
        okNoError (detect_traps fs sid bonus die).1 = true) := by
  refine ⟨?_, ?_, ?_⟩
  · intro fs sid bonus die h
    unfold detect_traps
    rw [h]
  · intro fs sid msg bonus die h
    unfold detect_traps
    rw [h]
  · intro fs sid bonus die entries hfs hh
    rw [detect_traps_parsed_dict fs sid bonus die entries hfs]
    cases hcr : (assocGet entries "current_room").getD (.str "") with
    | list xs => rw [hcr] at hh; exact Bool.noConfusion hh
    | dict es => rw [hcr] at hh; exact Bool.noConfusion hh
    | str s =>
        simp only [resolveRoom]
        cases htr : assocGet ROOM_TRAPS s with
        | some trap =>
            simp only [htr]
            split <;> rfl
        | none => simp only [htr]; rfl
    | null => rfl
    | bool b => rfl
    | int n => rfl

/-- C5 amended witness: a file system with no session file at all. -/
theorem detect_traps_error_reporting_witness :
    (detect_traps [] "ghost" 0 1).1 = .ok
      [("error", .bool true),
       ("message", .str ("Session \x27" ++ "ghost"
          ++ "\x27 not found. Create a session first with create_session()."))] :=
  detect_traps_error_reporting.1 [] "ghost" 0 1 rfl

/-- C10: `perception_bonus` is unvalidated — a negative bonus can drive
the reported roll to zero or below; a bonus of `-11` or less makes
`trap_found=true` unreachable in every trapped room even with die 20;
and a bonus of 19 or more makes it certain for the easy trap even with
die 1. -/
theorem perception_bonus_unvalidated :
    resultGet (detect_traps
        [(sessionPath "s4", FileContent.valid (.dict [("current_room", .str "darkwood_forest_entrance")]))]
        "s4" (-5) 1).1 "roll" = some (.int (-4)) ∧
    (∀ (bonus die : Int) (room : String) (trap : TrapDef),
        bonus ≤ -11 → 1 ≤ die → die ≤ 20 →
        assocGet ROOM_TRAPS room = some trap →
        resultGet (detect_traps
            [(sessionPath "s4", FileContent.valid (.dict [("current_room", .str room)]))]
            "s4" bonus die).1 "trap_found" = some (.bool false)) ∧
    (∀ (bonus die : Int), 19 ≤ bonus → 1 ≤ die → die ≤ 20 →
        resultGet (detect_traps
            [(sessionPath "s4", FileContent.valid (.dict [("current_room", .str "darkwood_forest_entrance")]))]
            "s4" bonus die).1 "trap_found" = some (.bool true)) := by
  refine ⟨rfl, ?_, ?_⟩
  · intro bonus die room trap hb hd1 hd2 htrap
    have hd := dcFor_bounds room trap htrap
    have h1 := detect_traps_parsed_dict
        [(sessionPath "s4", FileContent.valid (.dict [("current_room", .str room)]))]
        "s4" bonus die [("current_room", .str room)] rfl
    rw [show (assocGet [("current_room", PyValue.str room)] "current_room").getD
        (PyValue.str "") = PyValue.str room from rfl] at h1
    rw [resolveRoom_trap_some room (die + bonus) trap htrap] at h1
    rw [if_neg (by omega : ¬ die + bonus ≥ dcFor trap.difficulty)] at h1
    rw [h1]
    rfl
  · intro bonus die hb hd1 hd2
    have h1 := detect_traps_parsed_dict
        [(sessionPath "s4", FileContent.valid (.dict [("current_room", .str "darkwood_forest_entrance")]))]
        "s4" bonus die [("current_room", .str "darkwood_forest_entrance")] rfl
    rw [show (assocGet [("current_room", PyValue.str "darkwood_forest_entrance")]
        "current_room").getD (PyValue.str "")
        = PyValue.str "darkwood_forest_entrance" from rfl] at h1
    obtain ⟨trap, htrap, hdc⟩ :
        ∃ t, assocGet ROOM_TRAPS "darkwood_forest_entrance" = some t ∧
          dcFor t.difficulty = 10 := ⟨_, rfl, rfl⟩
    rw [resolveRoom_trap_some "darkwood_forest_entrance" (die + bonus) trap htrap] at h1
    rw [if_pos (by omega : die + bonus ≥ dcFor trap.difficulty)] at h1
    rw [h1]
    rfl

/-- C10 witness: bonus 19 with die 1 still finds the easy trap. -/
theorem perception_bonus_unvalidated_witness :
    resultGet (detect_traps
        [(sessionPath "s4", FileContent.valid (.dict [("current_room", .str "darkwood_forest_entrance")]))]
        "s4" 19 1).1 "trap_found" = some (.bool true) :=
  perception_bonus_unvalidated.2.2 19 1 (by decide) (by decide) (by decide)
